import Mathlib

/-!
Verification of the IAM bootstrap template generator of
cluster-api-provider-aws (`cmd/clusterawsadm/cloudformation/bootstrap/template.go`).

The file shallowly embeds the Go source: the Configuration Spec data shapes,
the logical-name constants, `NewManagedName`, `assumeRolePolicy`,
`ec2AssumeRolePolicy` and `RenderCloudFormation` are translated from the
source file.  Helper methods of `Template` whose bodies live in other files
of the repository (policy catalogs, trust-policy selectors, attachment lists,
tag conversion) are modelled from the specification document; each such
definition carries a doc comment starting with `Modelled from the spec:`.
The Go map assignment is modelled by `mapSet` on an
association list (overwrite-in-place if the key is present, append
otherwise), which also fixes a deterministic emission order; the nil
`*string` name suffix is modelled by `Option String`, with `none` standing
for the nil pointer whose dereference faults.
-/

namespace CAPA

/-! ## IAM policy document model (`cmd/clusterawsadm/api/iam/v1alpha1`) -/

/-- Modelled from the spec: the single policy-document version identifier
(`iamv1.CurrentVersion`, a constant defined outside `src/`). -/
def CurrentVersion : String := "2012-10-17"

/-- The allow effect (`iamv1.EffectAllow`). -/
def EffectAllow : String := "Allow"

/-- The service principal kind (`iamv1.PrincipalService`). -/
def PrincipalService : String := "Service"

/-- `iamv1.PrincipalID`: a list of principal identifiers. -/
abbrev PrincipalID := List String

/-- `iamv1.Principals`: a mapping from principal kind to identifiers,
modelled as an association list. -/
abbrev Principals := List (String × PrincipalID)

/-- `iamv1.Actions`. -/
abbrev Actions := List String

/-- `iamv1.StatementEntry`: effect, principal, actions (the fields used by
this subsystem). -/
structure StatementEntry where
  Effect : String
  Principal : Principals
  Action : Actions
  deriving DecidableEq, Repr

/-- `iamv1.PolicyDocument`: a versioned container of statements. -/
structure PolicyDocument where
  Version : String
  Statement : List StatementEntry
  deriving DecidableEq, Repr

/-! ## CloudFormation resource model (`goformation/v4/cloudformation/iam`) -/

/-- A CloudFormation tag (key/value pair). -/
structure Tag where
  Key : String
  Value : String
  deriving DecidableEq, Repr

/-- An inline policy entry attached to a role or user
(`cfn_iam.Role_Policy` / `cfn_iam.User_Policy`). -/
structure InlinePolicy where
  PolicyName : String
  Document : PolicyDocument
  deriving DecidableEq, Repr

/-- The resource variants produced by the template
(`cfn_iam.User`, `cfn_iam.Group`, `cfn_iam.ManagedPolicy`, `cfn_iam.Role`,
`cfn_iam.InstanceProfile`), with the fields `RenderCloudFormation` sets;
unset Go fields are the zero value (empty list / empty string). -/
inductive Resource where
  | User (UserName : String) (Groups : List String) (ManagedPolicyArns : List String)
      (Policies : List InlinePolicy) (Tags : List Tag)
  | Group (GroupName : String)
  | ManagedPolicy (ManagedPolicyName : String) (Description : String)
      (Document : PolicyDocument) (Groups : List String) (Roles : List String)
  | Role (RoleName : String) (AssumeRolePolicyDocument : PolicyDocument)
      (ManagedPolicyArns : List String) (Policies : List InlinePolicy) (Tags : List Tag)
  | InstanceProfile (InstanceProfileName : String) (Roles : List String)
  deriving DecidableEq, Repr

/-- Whether a resource is a `User`. -/
@[simp] def Resource.isUser : Resource → Bool
  | .User _ _ _ _ _ => true
  | .Group _ => false
  | .ManagedPolicy _ _ _ _ _ => false
  | .Role _ _ _ _ _ => false
  | .InstanceProfile _ _ => false

/-- Whether a resource is a `Group`. -/
@[simp] def Resource.isGroup : Resource → Bool
  | .User _ _ _ _ _ => false
  | .Group _ => true
  | .ManagedPolicy _ _ _ _ _ => false
  | .Role _ _ _ _ _ => false
  | .InstanceProfile _ _ => false

/-- Whether a resource is a `ManagedPolicy`. -/
@[simp] def Resource.isManagedPolicy : Resource → Bool
  | .User _ _ _ _ _ => false
  | .Group _ => false
  | .ManagedPolicy _ _ _ _ _ => true
  | .Role _ _ _ _ _ => false
  | .InstanceProfile _ _ => false

/-- Whether a resource is a `Role`. -/
@[simp] def Resource.isRole : Resource → Bool
  | .User _ _ _ _ _ => false
  | .Group _ => false
  | .ManagedPolicy _ _ _ _ _ => false
  | .Role _ _ _ _ _ => true
  | .InstanceProfile _ _ => false

/-- Whether a resource is an `InstanceProfile`. -/
@[simp] def Resource.isInstanceProfile : Resource → Bool
  | .User _ _ _ _ _ => false
  | .Group _ => false
  | .ManagedPolicy _ _ _ _ _ => false
  | .Role _ _ _ _ _ => false
  | .InstanceProfile _ _ => true

/-- The `Roles` reference list of an `InstanceProfile` (empty for other
variants). -/
@[simp] def Resource.profileRoles : Resource → List String
  | .User _ _ _ _ _ => []
  | .Group _ => []
  | .ManagedPolicy _ _ _ _ _ => []
  | .Role _ _ _ _ _ => []
  | .InstanceProfile _ roles => roles

/-- The `Roles` attachment list of a `ManagedPolicy` (empty for other
variants). -/
@[simp] def Resource.policyRoles : Resource → List String
  | .User _ _ _ _ _ => []
  | .Group _ => []
  | .ManagedPolicy _ _ _ _ roles => roles
  | .Role _ _ _ _ _ => []
  | .InstanceProfile _ _ => []

/-- The `ManagedPolicyArns` attachment list of a `User` (empty for other
variants). -/
@[simp] def Resource.userManagedPolicyArns : Resource → List String
  | .User _ _ arns _ _ => arns
  | .Group _ => []
  | .ManagedPolicy _ _ _ _ _ => []
  | .Role _ _ _ _ _ => []
  | .InstanceProfile _ _ => []

/-- Modelled from the spec: the goformation `cloudformation.Ref` intrinsic
(library code outside this repository), a by-logical-name reference to
another resource of the same template. -/
def Ref (logicalName : String) : String := "Ref:" ++ logicalName

/-- The resource map of a CloudFormation template: logical name to resource.
The Go string-keyed resource map is modelled as an association
list written by `mapSet`. -/
abbrev Resources := List (String × Resource)

/-- `cloudformation.Template`, restricted to the `Resources` section that
`RenderCloudFormation` populates. -/
structure CloudFormationTemplate where
  Resources : Resources
  deriving DecidableEq, Repr

/-- `cloudformation.NewTemplate()`: a template with an empty resource map. -/
def NewTemplate : CloudFormationTemplate := ⟨[]⟩

/-- Go map assignment `m[k] = v` on the association-list model: overwrite in
place when the key is present, append otherwise. -/
def mapSet (m : Resources) (k : String) (v : Resource) : Resources :=
  if m.any (fun p => p.1 == k) then
    m.map (fun p => if p.1 == k then (k, v) else p)
  else m ++ [(k, v)]

/-! ## Configuration Spec (`cmd/clusterawsadm/api/bootstrap/v1alpha1`) -/

/-- String-keyed tag maps of the Configuration Spec (`infrav1.Tags`),
modelled as association lists with unique keys. -/
abbrev SpecTags := List (String × String)

/-- The Bootstrap User group of the Configuration Spec (the fields read by
the template: enable toggle, user name, group name, tags). -/
structure BootstrapUserSpec where
  Enable : Bool
  UserName : String
  GroupName : String
  Tags : SpecTags
  deriving DecidableEq, Repr

/-- The Control Plane group of the Configuration Spec. -/
structure ControlPlaneSpec where
  DisableCloudProviderPolicy : Bool
  EnableCSIPolicy : Bool
  ExtraPolicyAttachments : List String
  Tags : SpecTags
  deriving DecidableEq, Repr

/-- The Nodes group of the Configuration Spec. -/
structure NodesSpec where
  DisableCloudProviderPolicy : Bool
  ExtraPolicyAttachments : List String
  Tags : SpecTags
  deriving DecidableEq, Repr

/-- The Cluster API Controllers group of the Configuration Spec. -/
structure ClusterAPIControllersSpec where
  Tags : SpecTags
  deriving DecidableEq, Repr

/-- The Managed (EKS-style) Control Plane group of the Configuration Spec. -/
structure ManagedControlPlaneSpec where
  Disable : Bool
  ExtraPolicyAttachments : List String
  Tags : SpecTags
  deriving DecidableEq, Repr

/-- `bootstrapv1.AWSIAMConfigurationSpec`.  `PrefixName` embeds the Go
field holding the configurable name prefix; `NameSuffix` is `*string` in Go
and is modelled by `Option String`, `none` standing for the nil pointer. -/
structure AWSIAMConfigurationSpec where
  PrefixName : String
  NameSuffix : Option String
  BootstrapUser : BootstrapUserSpec
  ControlPlane : ControlPlaneSpec
  ClusterAPIControllers : ClusterAPIControllersSpec
  Nodes : NodesSpec
  ManagedControlPlane : ManagedControlPlaneSpec
  deriving DecidableEq, Repr

/-! ## Logical-name constants (template.go lines 31-45) -/

@[simp] def AWSIAMGroupBootstrapper : String := "AWSIAMGroupBootstrapper"
@[simp] def AWSIAMInstanceProfileControllers : String := "AWSIAMInstanceProfileControllers"
@[simp] def AWSIAMInstanceProfileControlPlane : String := "AWSIAMInstanceProfileControlPlane"
@[simp] def AWSIAMInstanceProfileNodes : String := "AWSIAMInstanceProfileNodes"
@[simp] def AWSIAMRoleControllers : String := "AWSIAMRoleControllers"
@[simp] def AWSIAMRoleControlPlane : String := "AWSIAMRoleControlPlane"
@[simp] def AWSIAMRoleNodes : String := "AWSIAMRoleNodes"
@[simp] def AWSIAMRoleEKSControlPlane : String := "AWSIAMRoleEKSControlPlane"
@[simp] def AWSIAMUserBootstrapper : String := "AWSIAMUserBootstrapper"
@[simp] def ControllersPolicy : String := "AWSIAMManagedPolicyControllers"
@[simp] def ControlPlanePolicy : String := "AWSIAMManagedPolicyCloudProviderControlPlane"
@[simp] def NodePolicy : String := "AWSIAMManagedPolicyCloudProviderNodes"
@[simp] def CSIPolicy : String := "AWSEBSCSIPolicyController"

/-- Modelled from the spec: `infrav1exp.DefaultEKSControlPlaneRole`, the
fixed role name dictated by the naming contract of the managed-control-plane
subsystem
contract (constant defined outside `src/`). -/
def DefaultEKSControlPlaneRole : String := "eks-controlplane.cluster-api-provider-aws.sigs.k8s.io"

/-! ## Template (template.go lines 47-62, 173-188) -/

/-- `Template`: the resource assembler, holding the Configuration Spec
(`Spec *bootstrapv1.AWSIAMConfigurationSpec`, modelled by value since it is
never mutated). -/
structure Template where
  Spec : AWSIAMConfigurationSpec
  deriving DecidableEq, Repr

/-- `NewManagedName` (template.go lines 60-62): the concatenation
`fmt.Sprintf("%s%s%s", t.Spec.NamePrefix, name, *t.Spec.NameSuffix)`.
Dereferencing the nil suffix pointer faults, modelled by `none`. -/
def Template.NewManagedName (t : Template) (name : String) : Option String :=
  match t.Spec.NameSuffix with
  | none => none
  | some suffix => some (t.Spec.PrefixName ++ name ++ suffix)

/-- `assumeRolePolicy` (template.go lines 177-188): the trust policy
allowing the given service principal to assume the role. -/
def assumeRolePolicy (principalID : String) : PolicyDocument :=
  { Version := CurrentVersion
    Statement := [
      { Effect := EffectAllow
        Principal := [(PrincipalService, [principalID])]
        Action := ["sts:AssumeRole"] }] }

/-- `ec2AssumeRolePolicy` (template.go lines 173-175). -/
def ec2AssumeRolePolicy : PolicyDocument := assumeRolePolicy "ec2.amazonaws.com"

/-! ## Helper methods of `Template` whose bodies live outside `src/`

All of these are methods on the value receiver `Template`, whose only field
is the Configuration Spec, so each is a pure function of the spec.  Their
bodies are in other files of the repository; they are modelled here from the
specification document (sections 4.2 and 4.3). -/

/-- Modelled from the spec: the fixed permission catalog for the
cluster-API controllers (static data, body outside `src/`); the concrete
statements are abstracted as a placeholder grant. -/
def controllersPolicyCatalog : PolicyDocument :=
  { Version := CurrentVersion
    Statement := [
      { Effect := EffectAllow
        Principal := []
        Action := ["cluster-api-controllers:grants"] }] }

/-- Modelled from the spec: the fixed cloud-provider control-plane
permission catalog (static data, body outside `src/`). -/
def controlPlaneCatalog : PolicyDocument :=
  { Version := CurrentVersion
    Statement := [
      { Effect := EffectAllow
        Principal := []
        Action := ["cloud-provider-control-plane:grants"] }] }

/-- Modelled from the spec: the fixed cloud-provider nodes permission
catalog (static data, body outside `src/`). -/
def nodesCatalog : PolicyDocument :=
  { Version := CurrentVersion
    Statement := [
      { Effect := EffectAllow
        Principal := []
        Action := ["cloud-provider-nodes:grants"] }] }

/-- Modelled from the spec: the fixed CSI-driver permission catalog
(static data, body outside `src/`). -/
def csiCatalog : PolicyDocument :=
  { Version := CurrentVersion
    Statement := [
      { Effect := EffectAllow
        Principal := []
        Action := ["csi-driver:grants"] }] }

/-- Modelled from the spec: the fixed bootstrap-user permission catalog
(static data, body outside `src/`). -/
def bootstrapUserCatalog : PolicyDocument :=
  { Version := CurrentVersion
    Statement := [
      { Effect := EffectAllow
        Principal := []
        Action := ["bootstrap-user:grants"] }] }

/-- Modelled from the spec: `t.bootstrapUserGroups()`, the groups the
bootstrap user belongs to — its companion bootstrap group, by reference. -/
@[simp] def Template.bootstrapUserGroups (_t : Template) : List String :=
  [Ref AWSIAMGroupBootstrapper]

/-- Modelled from the spec: `t.bootstrapUserPolicy()`, the inline policy of
the bootstrap user, referencing the bootstrap-user catalog. -/
@[simp] def Template.bootstrapUserPolicy (_t : Template) : List InlinePolicy :=
  [⟨"bootstrap-user", bootstrapUserCatalog⟩]

/-- Modelled from the spec: `t.controllersPolicy()` selects the controllers
permission catalog. -/
@[simp] def Template.controllersPolicy (_t : Template) : PolicyDocument :=
  controllersPolicyCatalog

/-- Modelled from the spec: `t.controllersPolicyGroups()` attaches the
controllers policy to the bootstrap group when that group is created. -/
@[simp] def Template.controllersPolicyGroups (t : Template) : List String :=
  if t.Spec.BootstrapUser.Enable then [Ref AWSIAMGroupBootstrapper] else []

/-- Modelled from the spec: `t.controllersPolicyRoleAttachments()` attaches
the controllers policy to the controllers Role. -/
@[simp] def Template.controllersPolicyRoleAttachments (_t : Template) : List String :=
  [Ref AWSIAMRoleControllers]

/-- Modelled from the spec: `t.cloudProviderControlPlaneAwsPolicy()` selects
the cloud-provider control-plane catalog. -/
@[simp] def Template.cloudProviderControlPlaneAwsPolicy (_t : Template) : PolicyDocument :=
  controlPlaneCatalog

/-- Modelled from the spec: `t.cloudProviderControlPlaneAwsRoles()` attaches
the control-plane policy to the control-plane Role. -/
@[simp] def Template.cloudProviderControlPlaneAwsRoles (_t : Template) : List String :=
  [Ref AWSIAMRoleControlPlane]

/-- Modelled from the spec: `t.nodePolicy()` selects the cloud-provider
nodes catalog. -/
@[simp] def Template.nodePolicy (_t : Template) : PolicyDocument :=
  nodesCatalog

/-- Modelled from the spec: `t.cloudProviderNodeAwsRoles()` attaches the
nodes policy to the nodes Role. -/
@[simp] def Template.cloudProviderNodeAwsRoles (_t : Template) : List String :=
  [Ref AWSIAMRoleNodes]

/-- Modelled from the spec: `t.csiControllerPolicy()` selects the CSI
catalog. -/
@[simp] def Template.csiControllerPolicy (_t : Template) : PolicyDocument :=
  csiCatalog

/-- Modelled from the spec: `t.csiControlPlaneAwsRoles()` attaches the CSI
policy to the control-plane Role. -/
@[simp] def Template.csiControlPlaneAwsRoles (_t : Template) : List String :=
  [Ref AWSIAMRoleControlPlane]

/-- Modelled from the spec: `t.controlPlaneTrustPolicy()`, trust for the
compute-instance service principal. -/
@[simp] def Template.controlPlaneTrustPolicy (_t : Template) : PolicyDocument :=
  ec2AssumeRolePolicy

/-- Modelled from the spec: `t.controllersTrustPolicy()`, trust for the
compute-instance service principal. -/
@[simp] def Template.controllersTrustPolicy (_t : Template) : PolicyDocument :=
  ec2AssumeRolePolicy

/-- Modelled from the spec: `t.nodeTrustPolicy()`, trust for the
compute-instance service principal. -/
@[simp] def Template.nodeTrustPolicy (_t : Template) : PolicyDocument :=
  ec2AssumeRolePolicy

/-- Modelled from the spec: `t.controlPlanePolicies()`, the inline policy
list of the control-plane Role (static catalog data; no claim constrains
its contents, abstracted as empty). -/
@[simp] def Template.controlPlanePolicies (_t : Template) : List InlinePolicy := []

/-- Modelled from the spec: `t.nodePolicies()`, the inline policy list of
the nodes Role (static catalog data; abstracted as empty). -/
@[simp] def Template.nodePolicies (_t : Template) : List InlinePolicy := []

/-- Modelled from the spec: `eksAssumeRolePolicy()`, trust for the
managed-control-plane service principal, built through `assumeRolePolicy`. -/
def eksAssumeRolePolicy : PolicyDocument := assumeRolePolicy "eks.amazonaws.com"

/-- Modelled from the spec: `t.eksControlPlanePolicies()`, the externally
supplied managed-policy attachments of the managed control plane. -/
@[simp] def Template.eksControlPlanePolicies (t : Template) : List String :=
  t.Spec.ManagedControlPlane.ExtraPolicyAttachments

/-- Modelled from the spec: `converters.MapToCloudFormationTags` (repository
code outside `src/`), converting a spec tag map to CloudFormation tags. -/
@[simp] def MapToCloudFormationTags (m : SpecTags) : List Tag :=
  m.map (fun p => ⟨p.1, p.2⟩)

/-! ## RenderCloudFormation (template.go lines 66-171) -/

/-- The body of `RenderCloudFormation` once the name suffix has been
dereferenced: the Go map assignments of lines 69-168, in source order,
as `mapSet` writes.  `mn` is `t.NewManagedName` with the dereferenced
suffix. -/
def renderResources (t : Template) (suffix : String) : Resources :=
  let mn : String → String := fun name => t.Spec.PrefixName ++ name ++ suffix
  let r0 : Resources := (NewTemplate).Resources
  let r1 : Resources :=
    if t.Spec.BootstrapUser.Enable then
      mapSet
        (mapSet r0 AWSIAMUserBootstrapper
          (.User t.Spec.BootstrapUser.UserName t.bootstrapUserGroups
            t.Spec.ControlPlane.ExtraPolicyAttachments t.bootstrapUserPolicy
            (MapToCloudFormationTags t.Spec.BootstrapUser.Tags)))
        AWSIAMGroupBootstrapper (.Group t.Spec.BootstrapUser.GroupName)
    else r0
  let r2 := mapSet r1 ControllersPolicy
    (.ManagedPolicy (mn "controllers")
      "For the Kubernetes Cluster API Provider AWS Controllers"
      t.controllersPolicy t.controllersPolicyGroups
      t.controllersPolicyRoleAttachments)
  let r3 :=
    if !t.Spec.ControlPlane.DisableCloudProviderPolicy then
      mapSet r2 ControlPlanePolicy
        (.ManagedPolicy (mn "control-plane")
          "For the Kubernetes Cloud Provider AWS Control Plane"
          t.cloudProviderControlPlaneAwsPolicy []
          t.cloudProviderControlPlaneAwsRoles)
    else r2
  let r4 :=
    if !t.Spec.Nodes.DisableCloudProviderPolicy then
      mapSet r3 NodePolicy
        (.ManagedPolicy (mn "nodes")
          "For the Kubernetes Cloud Provider AWS nodes"
          t.nodePolicy [] t.cloudProviderNodeAwsRoles)
    else r3
  let r5 :=
    if t.Spec.ControlPlane.EnableCSIPolicy then
      mapSet r4 CSIPolicy
        (.ManagedPolicy (mn "csi")
          "For the AWS EBS CSI Driver for Kubernetes"
          t.csiControllerPolicy [] t.csiControlPlaneAwsRoles)
    else r4
  let r6 := mapSet r5 AWSIAMRoleControlPlane
    (.Role (mn "control-plane") t.controlPlaneTrustPolicy
      t.Spec.ControlPlane.ExtraPolicyAttachments t.controlPlanePolicies
      (MapToCloudFormationTags t.Spec.ControlPlane.Tags))
  let r7 := mapSet r6 AWSIAMRoleControllers
    (.Role (mn "controllers") t.controllersTrustPolicy [] []
      (MapToCloudFormationTags t.Spec.ClusterAPIControllers.Tags))
  let r8 := mapSet r7 AWSIAMRoleNodes
    (.Role (mn "nodes") t.nodeTrustPolicy
      t.Spec.Nodes.ExtraPolicyAttachments t.nodePolicies
      (MapToCloudFormationTags t.Spec.Nodes.Tags))
  let r9 := mapSet r8 AWSIAMInstanceProfileControlPlane
    (.InstanceProfile (mn "control-plane") [Ref AWSIAMRoleControlPlane])
  let r10 := mapSet r9 AWSIAMInstanceProfileControllers
    (.InstanceProfile (mn "controllers") [Ref AWSIAMRoleControllers])
  let r11 := mapSet r10 AWSIAMInstanceProfileNodes
    (.InstanceProfile (mn "nodes") [Ref AWSIAMRoleNodes])
  let r12 :=
    if !t.Spec.ManagedControlPlane.Disable then
      mapSet r11 AWSIAMRoleEKSControlPlane
        (.Role DefaultEKSControlPlaneRole eksAssumeRolePolicy
          t.eksControlPlanePolicies []
          (MapToCloudFormationTags t.Spec.ManagedControlPlane.Tags))
    else r11
  r12

/-- `RenderCloudFormation` (template.go lines 66-171).  The controllers
ManagedPolicy of line 83 is emitted unconditionally and its name (line 84)
dereferences the `NameSuffix` pointer through `NewManagedName`, so every
invocation on a spec with a nil suffix faults; `none` models that fault,
and all `NewManagedName` calls share the one dereferenced suffix. -/
def Template.RenderCloudFormation (t : Template) : Option CloudFormationTemplate :=
  match t.Spec.NameSuffix with
  | none => none
  | some suffix => some ⟨renderResources t suffix⟩

/-! ## The individual emitted resources, named for reuse in statements -/

/-- The bootstrap User resource of template.go lines 70-76. -/
@[simp] def bootstrapUserRes (t : Template) : Resource :=
  .User t.Spec.BootstrapUser.UserName t.bootstrapUserGroups
    t.Spec.ControlPlane.ExtraPolicyAttachments t.bootstrapUserPolicy
    (MapToCloudFormationTags t.Spec.BootstrapUser.Tags)

/-- The bootstrap Group resource of template.go lines 78-80. -/
@[simp] def bootstrapGroupRes (t : Template) : Resource :=
  .Group t.Spec.BootstrapUser.GroupName

/-- The controllers ManagedPolicy resource of template.go lines 83-89. -/
@[simp] def controllersPolicyRes (t : Template) (suffix : String) : Resource :=
  .ManagedPolicy (t.Spec.PrefixName ++ "controllers" ++ suffix)
    "For the Kubernetes Cluster API Provider AWS Controllers"
    t.controllersPolicy t.controllersPolicyGroups
    t.controllersPolicyRoleAttachments

/-- The cloud-provider control-plane ManagedPolicy resource of template.go
lines 92-97. -/
@[simp] def controlPlanePolicyRes (t : Template) (suffix : String) : Resource :=
  .ManagedPolicy (t.Spec.PrefixName ++ "control-plane" ++ suffix)
    "For the Kubernetes Cloud Provider AWS Control Plane"
    t.cloudProviderControlPlaneAwsPolicy []
    t.cloudProviderControlPlaneAwsRoles

/-- The cloud-provider nodes ManagedPolicy resource of template.go lines
101-106. -/
@[simp] def nodePolicyRes (t : Template) (suffix : String) : Resource :=
  .ManagedPolicy (t.Spec.PrefixName ++ "nodes" ++ suffix)
    "For the Kubernetes Cloud Provider AWS nodes"
    t.nodePolicy [] t.cloudProviderNodeAwsRoles

/-- The CSI ManagedPolicy resource of template.go lines 110-115. -/
@[simp] def csiPolicyRes (t : Template) (suffix : String) : Resource :=
  .ManagedPolicy (t.Spec.PrefixName ++ "csi" ++ suffix)
    "For the AWS EBS CSI Driver for Kubernetes"
    t.csiControllerPolicy [] t.csiControlPlaneAwsRoles

/-- The control-plane Role resource of template.go lines 118-124. -/
@[simp] def controlPlaneRoleRes (t : Template) (suffix : String) : Resource :=
  .Role (t.Spec.PrefixName ++ "control-plane" ++ suffix)
    t.controlPlaneTrustPolicy t.Spec.ControlPlane.ExtraPolicyAttachments
    t.controlPlanePolicies (MapToCloudFormationTags t.Spec.ControlPlane.Tags)

/-- The controllers Role resource of template.go lines 126-130. -/
@[simp] def controllersRoleRes (t : Template) (suffix : String) : Resource :=
  .Role (t.Spec.PrefixName ++ "controllers" ++ suffix)
    t.controllersTrustPolicy [] []
    (MapToCloudFormationTags t.Spec.ClusterAPIControllers.Tags)

/-- The nodes Role resource of template.go lines 132-138. -/
@[simp] def nodesRoleRes (t : Template) (suffix : String) : Resource :=
  .Role (t.Spec.PrefixName ++ "nodes" ++ suffix)
    t.nodeTrustPolicy t.Spec.Nodes.ExtraPolicyAttachments
    t.nodePolicies (MapToCloudFormationTags t.Spec.Nodes.Tags)

/-- The control-plane InstanceProfile resource of template.go lines
140-145. -/
@[simp] def controlPlaneProfileRes (t : Template) (suffix : String) : Resource :=
  .InstanceProfile (t.Spec.PrefixName ++ "control-plane" ++ suffix)
    [Ref AWSIAMRoleControlPlane]

/-- The controllers InstanceProfile resource of template.go lines 147-152. -/
@[simp] def controllersProfileRes (t : Template) (suffix : String) : Resource :=
  .InstanceProfile (t.Spec.PrefixName ++ "controllers" ++ suffix)
    [Ref AWSIAMRoleControllers]

/-- The nodes InstanceProfile resource of template.go lines 154-159. -/
@[simp] def nodesProfileRes (t : Template) (suffix : String) : Resource :=
  .InstanceProfile (t.Spec.PrefixName ++ "nodes" ++ suffix)
    [Ref AWSIAMRoleNodes]

/-- The managed-control-plane (EKS) Role resource of template.go lines
162-167. -/
@[simp] def eksRoleRes (t : Template) : Resource :=
  .Role DefaultEKSControlPlaneRole eksAssumeRolePolicy
    t.eksControlPlanePolicies []
    (MapToCloudFormationTags t.Spec.ManagedControlPlane.Tags)

/-- The emission-order normal form of the rendered resource map: since the
logical-name keys are pairwise distinct constants, every Go map assignment
appends, and the map is the concatenation of the guarded emission steps in
source order. -/
theorem renderResources_normal (t : Template) (suffix : String) :
    renderResources t suffix =
      (if t.Spec.BootstrapUser.Enable then
        [(AWSIAMUserBootstrapper, bootstrapUserRes t),
         (AWSIAMGroupBootstrapper, bootstrapGroupRes t)] else []) ++
      [(ControllersPolicy, controllersPolicyRes t suffix)] ++
      (if t.Spec.ControlPlane.DisableCloudProviderPolicy then []
       else [(ControlPlanePolicy, controlPlanePolicyRes t suffix)]) ++
      (if t.Spec.Nodes.DisableCloudProviderPolicy then []
       else [(NodePolicy, nodePolicyRes t suffix)]) ++
      (if t.Spec.ControlPlane.EnableCSIPolicy then
        [(CSIPolicy, csiPolicyRes t suffix)] else []) ++
      [(AWSIAMRoleControlPlane, controlPlaneRoleRes t suffix),
       (AWSIAMRoleControllers, controllersRoleRes t suffix),
       (AWSIAMRoleNodes, nodesRoleRes t suffix),
       (AWSIAMInstanceProfileControlPlane, controlPlaneProfileRes t suffix),
       (AWSIAMInstanceProfileControllers, controllersProfileRes t suffix),
       (AWSIAMInstanceProfileNodes, nodesProfileRes t suffix)] ++
      (if t.Spec.ManagedControlPlane.Disable then []
       else [(AWSIAMRoleEKSControlPlane, eksRoleRes t)]) := by
  cases hb : t.Spec.BootstrapUser.Enable <;>
    cases hcp : t.Spec.ControlPlane.DisableCloudProviderPolicy <;>
    cases hn : t.Spec.Nodes.DisableCloudProviderPolicy <;>
    cases hcsi : t.Spec.ControlPlane.EnableCSIPolicy <;>
    cases hm : t.Spec.ManagedControlPlane.Disable <;>
    simp [renderResources, mapSet, NewTemplate, hb, hcp, hn, hcsi, hm,
      AWSIAMGroupBootstrapper, AWSIAMInstanceProfileControllers,
      AWSIAMInstanceProfileControlPlane, AWSIAMInstanceProfileNodes,
      AWSIAMRoleControllers, AWSIAMRoleControlPlane, AWSIAMRoleNodes,
      AWSIAMRoleEKSControlPlane, AWSIAMUserBootstrapper,
      ControllersPolicy, ControlPlanePolicy, NodePolicy, CSIPolicy,
      bootstrapUserRes, bootstrapGroupRes, controllersPolicyRes,
      controlPlanePolicyRes, nodePolicyRes, csiPolicyRes,
      controlPlaneRoleRes, controllersRoleRes, nodesRoleRes,
      controlPlaneProfileRes, controllersProfileRes, nodesProfileRes,
      eksRoleRes]

/-- Unfolding of `RenderCloudFormation` on a spec whose name suffix is
non-nil. -/
theorem renderCloudFormation_eq_of_suffix (t : Template) (suffix : String)
    (h : t.Spec.NameSuffix = some suffix) :
    t.RenderCloudFormation = some ⟨renderResources t suffix⟩ := by
  unfold Template.RenderCloudFormation
  rw [h]

/-- A concrete Configuration Spec used to instantiate theorems: prefix
`"test-"`, suffix `".cluster-api"`, bootstrap user enabled, all optional
resources enabled. -/
def exampleSpec : AWSIAMConfigurationSpec :=
  { PrefixName := "test-"
    NameSuffix := some ".cluster-api"
    BootstrapUser :=
      { Enable := true
        UserName := "bootstrapper.cluster-api-provider-aws.sigs.k8s.io"
        GroupName := "bootstrapper-group"
        Tags := [] }
    ControlPlane :=
      { DisableCloudProviderPolicy := false
        EnableCSIPolicy := true
        ExtraPolicyAttachments := ["arn:extra-control-plane"]
        Tags := [] }
    ClusterAPIControllers := { Tags := [] }
    Nodes :=
      { DisableCloudProviderPolicy := false
        ExtraPolicyAttachments := []
        Tags := [] }
    ManagedControlPlane :=
      { Disable := false
        ExtraPolicyAttachments := []
        Tags := [] } }

/-- Auxiliary: `List.lookup` distributes over list append. -/
theorem lookup_append (k : String) (l1 l2 : Resources) :
    (l1 ++ l2).lookup k = ((l1.lookup k).or (l2.lookup k)) := by
  induction l1 with
  | nil => simp [List.lookup]
  | cons a l ih =>
    cases a with
    | mk k1 v1 =>
      by_cases h : (k == k1)
      · simp [List.lookup, h, Option.or]
      · simp [List.lookup, h, ih]

/-- Looking up the bootstrap User key: present exactly when the Bootstrap
User group is enabled. -/
theorem lookup_render_user (t : Template) (suffix : String) :
    (renderResources t suffix).lookup AWSIAMUserBootstrapper =
      if t.Spec.BootstrapUser.Enable then some (bootstrapUserRes t) else none := by
  rw [renderResources_normal]
  cases hb : t.Spec.BootstrapUser.Enable <;>
    · simp only [hb, lookup_append, apply_ite (List.lookup AWSIAMUserBootstrapper)]
      simp only [List.lookup]
      simp

/-- Looking up the cloud-provider control-plane ManagedPolicy key: present
exactly when the default policy of the Control Plane group is not disabled. -/
theorem lookup_render_cpPolicy (t : Template) (suffix : String) :
    (renderResources t suffix).lookup ControlPlanePolicy =
      if t.Spec.ControlPlane.DisableCloudProviderPolicy then none
      else some (controlPlanePolicyRes t suffix) := by
  rw [renderResources_normal]
  cases hcp : t.Spec.ControlPlane.DisableCloudProviderPolicy <;>
    · simp only [hcp, lookup_append, apply_ite (List.lookup ControlPlanePolicy)]
      simp only [List.lookup]
      simp

/-- Looking up the managed-control-plane Role key: present exactly when the
Managed Control Plane group is not disabled. -/
theorem lookup_render_eksRole (t : Template) (suffix : String) :
    (renderResources t suffix).lookup AWSIAMRoleEKSControlPlane =
      if t.Spec.ManagedControlPlane.Disable then none
      else some (eksRoleRes t) := by
  rw [renderResources_normal]
  cases hmc : t.Spec.ManagedControlPlane.Disable <;>
    · simp only [hmc, lookup_append, apply_ite (List.lookup AWSIAMRoleEKSControlPlane)]
      simp only [List.lookup]
      simp

/-- Looking up the control-plane Role key always succeeds. -/
theorem lookup_render_roleControlPlane (t : Template) (suffix : String) :
    (renderResources t suffix).lookup AWSIAMRoleControlPlane =
      some (controlPlaneRoleRes t suffix) := by
  rw [renderResources_normal]
  simp only [lookup_append, apply_ite (List.lookup AWSIAMRoleControlPlane)]
  simp only [List.lookup]
  simp

/-- Looking up the controllers Role key always succeeds. -/
theorem lookup_render_roleControllers (t : Template) (suffix : String) :
    (renderResources t suffix).lookup AWSIAMRoleControllers =
      some (controllersRoleRes t suffix) := by
  rw [renderResources_normal]
  simp only [lookup_append, apply_ite (List.lookup AWSIAMRoleControllers)]
  simp only [List.lookup]
  simp

/-- Looking up the nodes Role key always succeeds. -/
theorem lookup_render_roleNodes (t : Template) (suffix : String) :
    (renderResources t suffix).lookup AWSIAMRoleNodes =
      some (nodesRoleRes t suffix) := by
  rw [renderResources_normal]
  simp only [lookup_append, apply_ite (List.lookup AWSIAMRoleNodes)]
  simp only [List.lookup]
  simp

/-! ## Claims -/

/-- C2: for every Configuration Spec whose rendering succeeds and whose
Bootstrap User group is disabled, the resource map holds no entry under the
keys `AWSIAMUserBootstrapper` or `AWSIAMGroupBootstrapper`, and no resource
of the map is a User or a Group. -/
theorem bootstrapDisabled_no_user_no_group (t : Template)
    (m : CloudFormationTemplate)
    (h1 : t.RenderCloudFormation = some m)
    (h2 : t.Spec.BootstrapUser.Enable = false) :
    m.Resources.lookup AWSIAMUserBootstrapper = none ∧
    m.Resources.lookup AWSIAMGroupBootstrapper = none ∧
    ∀ p ∈ m.Resources, p.2.isUser = false ∧ p.2.isGroup = false := by
  unfold Template.RenderCloudFormation at h1
  cases hs : t.Spec.NameSuffix with
  | none => rw [hs] at h1; exact absurd h1 (by simp)
  | some suffix =>
    rw [hs] at h1
    have hm : m = ⟨renderResources t suffix⟩ := by
      cases h1; rfl
    subst hm
    rw [renderResources_normal, h2]
    refine ⟨?_, ?_, ?_⟩
    · simp only [lookup_append, apply_ite (List.lookup AWSIAMUserBootstrapper)]
      simp only [List.lookup]
      simp
    · simp only [lookup_append, apply_ite (List.lookup AWSIAMGroupBootstrapper)]
      simp only [List.lookup]
      simp
    · cases hcp : t.Spec.ControlPlane.DisableCloudProviderPolicy <;>
      cases hn : t.Spec.Nodes.DisableCloudProviderPolicy <;>
      cases hcsi : t.Spec.ControlPlane.EnableCSIPolicy <;>
      cases hmc : t.Spec.ManagedControlPlane.Disable <;>
      simp [hcp, hn, hcsi, hmc, List.forall_mem_append, List.forall_mem_cons]

/-- The example spec with the Bootstrap User group disabled. -/
def exampleSpecNoUser : AWSIAMConfigurationSpec :=
  { exampleSpec with
    BootstrapUser := { exampleSpec.BootstrapUser with Enable := false } }

/-- Witness for C2 at the concrete disabled-bootstrap-user spec. -/
theorem bootstrapDisabled_no_user_no_group_witness :
    (CloudFormationTemplate.mk
        (renderResources (Template.mk exampleSpecNoUser) ".cluster-api")).Resources.lookup
        AWSIAMUserBootstrapper = none ∧
    (CloudFormationTemplate.mk
        (renderResources (Template.mk exampleSpecNoUser) ".cluster-api")).Resources.lookup
        AWSIAMGroupBootstrapper = none ∧
    ∀ p ∈ (CloudFormationTemplate.mk
        (renderResources (Template.mk exampleSpecNoUser) ".cluster-api")).Resources,
      p.2.isUser = false ∧ p.2.isGroup = false :=
  bootstrapDisabled_no_user_no_group (Template.mk exampleSpecNoUser)
    (CloudFormationTemplate.mk
      (renderResources (Template.mk exampleSpecNoUser) ".cluster-api"))
    rfl rfl

/-- C3: `NewManagedName` returns the concatenation of the configured
prefix, the base name and the configured suffix whenever the suffix
pointer is non-nil. -/
theorem newManagedName_concat (t : Template) (base suffix : String)
    (h : t.Spec.NameSuffix = some suffix) :
    t.NewManagedName base = some (t.Spec.PrefixName ++ base ++ suffix) := by
  unfold Template.NewManagedName
  rw [h]

/-- Witness for C3: with prefix `"test-"`, base `"nodes"` and suffix
`".cluster-api"` the resolver returns `"test-nodes.cluster-api"`. -/
theorem newManagedName_concat_witness :
    (Template.mk exampleSpec).NewManagedName "nodes" =
      some "test-nodes.cluster-api" := by
  rw [newManagedName_concat (Template.mk exampleSpec) "nodes" ".cluster-api" rfl]
  decide

/-- C4: for every service principal, `assumeRolePolicy` returns a policy
document with exactly one statement, whose effect is Allow, whose principal
is the given service principal, and whose action list is exactly the
single action `sts:AssumeRole`. -/
theorem assumeRolePolicy_single_allow_statement (p : String) :
    (assumeRolePolicy p).Statement.length = 1 ∧
    (assumeRolePolicy p).Statement.head? = some
      { Effect := EffectAllow
        Principal := [(PrincipalService, [p])]
        Action := ["sts:AssumeRole"] } :=
  ⟨rfl, rfl⟩

/-- C7: `RenderCloudFormation` is a deterministic pure function of the
Configuration Spec: any two templates carrying equal specs render equal
resource maps, with no dependence on anything else. -/
theorem renderCloudFormation_deterministic (t1 t2 : Template)
    (h : t1.Spec = t2.Spec) :
    t1.RenderCloudFormation = t2.RenderCloudFormation := by
  cases t1 with
  | mk s1 =>
    cases t2 with
    | mk s2 =>
      cases h
      rfl

/-- Witness for C7: two syntactically distinct templates over the same
spec render the same map. -/
theorem renderCloudFormation_deterministic_witness :
    (Template.mk exampleSpec).RenderCloudFormation =
      (Template.mk { exampleSpec with PrefixName := "test-" }).RenderCloudFormation :=
  renderCloudFormation_deterministic (Template.mk exampleSpec)
    (Template.mk { exampleSpec with PrefixName := "test-" }) rfl

/-- C8: the assembler has no failure path on a spec whose required
name-suffix pointer is non-nil, and faults (rather than silently
defaulting) exactly when that pointer is nil; likewise each
`NewManagedName` call faults exactly on the nil suffix. -/
theorem renderCloudFormation_fails_iff_nil_suffix (t : Template) :
    (t.RenderCloudFormation = none ↔ t.Spec.NameSuffix = none) ∧
    (∀ name, t.NewManagedName name = none ↔ t.Spec.NameSuffix = none) := by
  cases hs : t.Spec.NameSuffix with
  | none =>
    constructor
    · simp [Template.RenderCloudFormation, hs]
    · intro name
      simp [Template.NewManagedName, hs]
  | some suffix =>
    constructor
    · simp [Template.RenderCloudFormation, hs]
    · intro name
      simp [Template.NewManagedName, hs]

/-- C9: whenever the Bootstrap User group is enabled, the emitted User
resource has attached managed-policy ARNs equal to the Control Plane
extra-policy-attachments field (not a field of the Bootstrap User group),
and replacing that Control Plane field with any list `l` yields a User
resource whose attached ARNs are `l`. -/
theorem bootstrapUser_attaches_controlPlane_extras (t : Template)
    (m : CloudFormationTemplate)
    (h1 : t.RenderCloudFormation = some m)
    (h2 : t.Spec.BootstrapUser.Enable = true) :
    m.Resources.lookup AWSIAMUserBootstrapper = some (bootstrapUserRes t) ∧
    (bootstrapUserRes t).userManagedPolicyArns =
      t.Spec.ControlPlane.ExtraPolicyAttachments ∧
    ∀ l : List String,
      (bootstrapUserRes (Template.mk { t.Spec with
        ControlPlane := { t.Spec.ControlPlane with
          ExtraPolicyAttachments := l } })).userManagedPolicyArns = l := by
  unfold Template.RenderCloudFormation at h1
  cases hs : t.Spec.NameSuffix with
  | none => rw [hs] at h1; exact absurd h1 (by simp)
  | some suffix =>
    rw [hs] at h1
    have hm : m = ⟨renderResources t suffix⟩ := by
      cases h1; rfl
    subst hm
    refine ⟨?_, ?_, ?_⟩
    · rw [CloudFormationTemplate.Resources, lookup_render_user, h2]
      simp
    · simp
    · intro l
      simp

/-- Witness for C9 at the concrete bootstrap-enabled spec. -/
theorem bootstrapUser_attaches_controlPlane_extras_witness :
    (CloudFormationTemplate.mk
        (renderResources (Template.mk exampleSpec) ".cluster-api")).Resources.lookup
        AWSIAMUserBootstrapper = some (bootstrapUserRes (Template.mk exampleSpec)) ∧
    (bootstrapUserRes (Template.mk exampleSpec)).userManagedPolicyArns =
      (Template.mk exampleSpec).Spec.ControlPlane.ExtraPolicyAttachments ∧
    ∀ l : List String,
      (bootstrapUserRes (Template.mk { (Template.mk exampleSpec).Spec with
        ControlPlane := { (Template.mk exampleSpec).Spec.ControlPlane with
          ExtraPolicyAttachments := l } })).userManagedPolicyArns = l :=
  bootstrapUser_attaches_controlPlane_extras (Template.mk exampleSpec)
    (CloudFormationTemplate.mk
      (renderResources (Template.mk exampleSpec) ".cluster-api"))
    rfl rfl

/-- C10: the logical-name keys of the rendered map are pairwise distinct
for every Configuration Spec (no Go map assignment ever overwrites an
earlier entry), and the map holds exactly one entry per executed emission
step. -/
theorem render_keys_nodup_one_entry_per_step (t : Template) (suffix : String) :
    ((renderResources t suffix).map Prod.fst).Nodup ∧
    (renderResources t suffix).length =
      (if t.Spec.BootstrapUser.Enable then 2 else 0) + 1 +
      (if t.Spec.ControlPlane.DisableCloudProviderPolicy then 0 else 1) +
      (if t.Spec.Nodes.DisableCloudProviderPolicy then 0 else 1) +
      (if t.Spec.ControlPlane.EnableCSIPolicy then 1 else 0) + 6 +
      (if t.Spec.ManagedControlPlane.Disable then 0 else 1) := by
  rw [renderResources_normal]
  cases hb : t.Spec.BootstrapUser.Enable <;>
  cases hcp : t.Spec.ControlPlane.DisableCloudProviderPolicy <;>
  cases hn : t.Spec.Nodes.DisableCloudProviderPolicy <;>
  cases hcsi : t.Spec.ControlPlane.EnableCSIPolicy <;>
  cases hmc : t.Spec.ManagedControlPlane.Disable <;>
  simp [hb, hcp, hn, hcsi, hmc]

/-- Every InstanceProfile in the rendered map references exactly one Role,
by logical name, and that Role is present in the same map. -/
theorem mem_render_profile_references_role (t : Template) (suffix : String)
    (p : String × Resource) (hp : p ∈ renderResources t suffix)
    (hprof : p.2.isInstanceProfile = true) :
    ∃ k r, p.2.profileRoles = [Ref k] ∧
      (renderResources t suffix).lookup k = some r ∧ r.isRole = true := by
  rw [renderResources_normal] at hp
  simp only [List.append_assoc, List.mem_append] at hp
  rcases hp with hp | hp | hp | hp | hp | hp | hp
  · cases hb : t.Spec.BootstrapUser.Enable
    · simp [hb] at hp
    · simp [hb] at hp
      rcases hp with rfl | rfl <;> simp at hprof
  · simp at hp
    subst hp
    simp at hprof
  · cases hcp : t.Spec.ControlPlane.DisableCloudProviderPolicy
    · simp [hcp] at hp
      subst hp
      simp at hprof
    · simp [hcp] at hp
  · cases hn : t.Spec.Nodes.DisableCloudProviderPolicy
    · simp [hn] at hp
      subst hp
      simp at hprof
    · simp [hn] at hp
  · cases hcsi : t.Spec.ControlPlane.EnableCSIPolicy
    · simp [hcsi] at hp
    · simp [hcsi] at hp
      subst hp
      simp at hprof
  · simp at hp
    rcases hp with rfl | rfl | rfl | rfl | rfl | rfl
    · simp at hprof
    · simp at hprof
    · simp at hprof
    · exact ⟨AWSIAMRoleControlPlane, controlPlaneRoleRes t suffix, by simp,
        lookup_render_roleControlPlane t suffix, by simp⟩
    · exact ⟨AWSIAMRoleControllers, controllersRoleRes t suffix, by simp,
        lookup_render_roleControllers t suffix, by simp⟩
    · exact ⟨AWSIAMRoleNodes, nodesRoleRes t suffix, by simp,
        lookup_render_roleNodes t suffix, by simp⟩
  · cases hmc : t.Spec.ManagedControlPlane.Disable
    · simp [hmc] at hp
      subst hp
      simp at hprof
    · simp [hmc] at hp

/-- C1 (amended): for every Configuration Spec whose rendering succeeds,
the resource map contains exactly three InstanceProfile resources; its Role
resources are the always-present three (control-plane, controllers, nodes)
plus the managed-control-plane Role exactly when that group is enabled
(hence exactly three Roles only when it is disabled, four otherwise); and
every InstanceProfile references exactly one Role, by logical name, that is
present in the same map. -/
theorem render_three_profiles_roles (t : Template) (m : CloudFormationTemplate)
    (h : t.RenderCloudFormation = some m) :
    m.Resources.countP (fun p => p.2.isInstanceProfile) = 3 ∧
    m.Resources.countP (fun p => p.2.isRole) =
      (if t.Spec.ManagedControlPlane.Disable then 3 else 4) ∧
    (∃ r, m.Resources.lookup AWSIAMRoleControlPlane = some r ∧ r.isRole = true) ∧
    (∃ r, m.Resources.lookup AWSIAMRoleControllers = some r ∧ r.isRole = true) ∧
    (∃ r, m.Resources.lookup AWSIAMRoleNodes = some r ∧ r.isRole = true) ∧
    ∀ p ∈ m.Resources, p.2.isInstanceProfile = true →
      ∃ k r, p.2.profileRoles = [Ref k] ∧
        m.Resources.lookup k = some r ∧ r.isRole = true := by
  unfold Template.RenderCloudFormation at h
  cases hs : t.Spec.NameSuffix with
  | none => rw [hs] at h; exact absurd h (by simp)
  | some suffix =>
    rw [hs] at h
    have hm : m = ⟨renderResources t suffix⟩ := by
      cases h; rfl
    subst hm
    refine ⟨?_, ?_, ?_, ?_, ?_, ?_⟩
    · rw [CloudFormationTemplate.Resources, renderResources_normal]
      cases hb : t.Spec.BootstrapUser.Enable <;>
      cases hcp : t.Spec.ControlPlane.DisableCloudProviderPolicy <;>
      cases hn : t.Spec.Nodes.DisableCloudProviderPolicy <;>
      cases hcsi : t.Spec.ControlPlane.EnableCSIPolicy <;>
      cases hmc : t.Spec.ManagedControlPlane.Disable <;>
      simp [hb, hcp, hn, hcsi, hmc, List.countP_append, List.countP_cons]
    · rw [CloudFormationTemplate.Resources, renderResources_normal]
      cases hb : t.Spec.BootstrapUser.Enable <;>
      cases hcp : t.Spec.ControlPlane.DisableCloudProviderPolicy <;>
      cases hn : t.Spec.Nodes.DisableCloudProviderPolicy <;>
      cases hcsi : t.Spec.ControlPlane.EnableCSIPolicy <;>
      cases hmc : t.Spec.ManagedControlPlane.Disable <;>
      simp [hb, hcp, hn, hcsi, hmc, List.countP_append, List.countP_cons]
    · exact ⟨controlPlaneRoleRes t suffix,
        lookup_render_roleControlPlane t suffix, by simp⟩
    · exact ⟨controllersRoleRes t suffix,
        lookup_render_roleControllers t suffix, by simp⟩
    · exact ⟨nodesRoleRes t suffix,
        lookup_render_roleNodes t suffix, by simp⟩
    · intro p hp hprof
      exact mem_render_profile_references_role t suffix p hp hprof

/-- Counterexample for C1 as stated: at the example spec (managed control
plane enabled) the rendered map contains four Role resources, not exactly
three. -/
theorem render_three_roles_counterexample :
    (Template.mk exampleSpec).RenderCloudFormation =
      some (CloudFormationTemplate.mk
        (renderResources (Template.mk exampleSpec) ".cluster-api")) ∧
    ¬ ((CloudFormationTemplate.mk
        (renderResources (Template.mk exampleSpec) ".cluster-api")).Resources.countP
          (fun p => p.2.isRole) = 3) := by
  refine ⟨rfl, ?_⟩
  decide

/-- Witness for C1 (amended) at the concrete example spec. -/
theorem render_three_profiles_roles_witness :
    (CloudFormationTemplate.mk
        (renderResources (Template.mk exampleSpec) ".cluster-api")).Resources.countP
      (fun p => p.2.isInstanceProfile) = 3 ∧
    (CloudFormationTemplate.mk
        (renderResources (Template.mk exampleSpec) ".cluster-api")).Resources.countP
      (fun p => p.2.isRole) =
      (if (Template.mk exampleSpec).Spec.ManagedControlPlane.Disable then 3 else 4) ∧
    (∃ r, (CloudFormationTemplate.mk
        (renderResources (Template.mk exampleSpec) ".cluster-api")).Resources.lookup
        AWSIAMRoleControlPlane = some r ∧ r.isRole = true) ∧
    (∃ r, (CloudFormationTemplate.mk
        (renderResources (Template.mk exampleSpec) ".cluster-api")).Resources.lookup
        AWSIAMRoleControllers = some r ∧ r.isRole = true) ∧
    (∃ r, (CloudFormationTemplate.mk
        (renderResources (Template.mk exampleSpec) ".cluster-api")).Resources.lookup
        AWSIAMRoleNodes = some r ∧ r.isRole = true) ∧
    ∀ p ∈ (CloudFormationTemplate.mk
        (renderResources (Template.mk exampleSpec) ".cluster-api")).Resources,
      p.2.isInstanceProfile = true →
      ∃ k r, p.2.profileRoles = [Ref k] ∧
        (CloudFormationTemplate.mk
          (renderResources (Template.mk exampleSpec) ".cluster-api")).Resources.lookup
          k = some r ∧ r.isRole = true :=
  render_three_profiles_roles (Template.mk exampleSpec)
    (CloudFormationTemplate.mk
      (renderResources (Template.mk exampleSpec) ".cluster-api"))
    rfl

/-- Removal of one key from the resource map; only used to state frame
properties (the complement of a single emission step). -/
def mapDelete (m : Resources) (k : String) : Resources :=
  m.filter (fun p => !(p.1 == k))

/-- The spec with the Control Plane disable-default-policy toggle
set to `b` and everything else unchanged. -/
def withCPDisable (s : AWSIAMConfigurationSpec) (b : Bool) : AWSIAMConfigurationSpec :=
  { s with ControlPlane := { s.ControlPlane with DisableCloudProviderPolicy := b } }

/-- The spec with the Managed Control Plane disable toggle set to
`b` and everything else unchanged. -/
def withMCPDisable (s : AWSIAMConfigurationSpec) (b : Bool) : AWSIAMConfigurationSpec :=
  { s with ManagedControlPlane := { s.ManagedControlPlane with Disable := b } }

/-- C5: for two Configuration Specs differing only in the Control Plane
group disable-default-policy toggle, the rendering with the toggle set
is exactly the rendering with it unset minus the cloud-provider
control-plane ManagedPolicy entry (which carries the attachment reference
to the control-plane Role); every other resource is identical. -/
theorem cpPolicyToggle_frame (s : AWSIAMConfigurationSpec) (suffix : String)
    (hs : s.NameSuffix = some suffix) :
    (Template.mk (withCPDisable s true)).RenderCloudFormation =
      some (CloudFormationTemplate.mk
        (mapDelete (renderResources (Template.mk (withCPDisable s false)) suffix)
          ControlPlanePolicy)) ∧
    (Template.mk (withCPDisable s false)).RenderCloudFormation =
      some (CloudFormationTemplate.mk
        (renderResources (Template.mk (withCPDisable s false)) suffix)) ∧
    (renderResources (Template.mk (withCPDisable s false)) suffix).lookup
        ControlPlanePolicy =
      some (controlPlanePolicyRes (Template.mk (withCPDisable s false)) suffix) ∧
    (controlPlanePolicyRes (Template.mk (withCPDisable s false)) suffix).policyRoles =
      [Ref AWSIAMRoleControlPlane] := by
  refine ⟨?_, ?_, ?_, by simp⟩
  · rw [renderCloudFormation_eq_of_suffix (Template.mk (withCPDisable s true)) suffix
      (by simpa [withCPDisable] using hs)]
    refine congrArg some (congrArg CloudFormationTemplate.mk ?_)
    rw [renderResources_normal, renderResources_normal]
    cases hb : s.BootstrapUser.Enable <;>
    cases hn : s.Nodes.DisableCloudProviderPolicy <;>
    cases hcsi : s.ControlPlane.EnableCSIPolicy <;>
    cases hmc : s.ManagedControlPlane.Disable <;>
    simp [withCPDisable, mapDelete, hb, hn, hcsi, hmc, List.filter_append]
  · exact renderCloudFormation_eq_of_suffix (Template.mk (withCPDisable s false)) suffix
      (by simpa [withCPDisable] using hs)
  · rw [lookup_render_cpPolicy]
    simp [withCPDisable]

/-- Witness for C5 at the concrete example spec. -/
theorem cpPolicyToggle_frame_witness :
    (Template.mk (withCPDisable exampleSpec true)).RenderCloudFormation =
      some (CloudFormationTemplate.mk
        (mapDelete (renderResources (Template.mk (withCPDisable exampleSpec false))
          ".cluster-api") ControlPlanePolicy)) ∧
    (Template.mk (withCPDisable exampleSpec false)).RenderCloudFormation =
      some (CloudFormationTemplate.mk
        (renderResources (Template.mk (withCPDisable exampleSpec false)) ".cluster-api")) ∧
    (renderResources (Template.mk (withCPDisable exampleSpec false)) ".cluster-api").lookup
        ControlPlanePolicy =
      some (controlPlanePolicyRes (Template.mk (withCPDisable exampleSpec false))
        ".cluster-api") ∧
    (controlPlanePolicyRes (Template.mk (withCPDisable exampleSpec false))
        ".cluster-api").policyRoles = [Ref AWSIAMRoleControlPlane] :=
  cpPolicyToggle_frame exampleSpec ".cluster-api" rfl

/-- C6: for two Configuration Specs differing only in the Managed Control
Plane group disable toggle, setting the toggle removes exactly the
managed-control-plane Role entry from the rendered map, and the three
always-present Roles are identical in both maps. -/
theorem mcpToggle_frame (s : AWSIAMConfigurationSpec) (suffix : String)
    (hs : s.NameSuffix = some suffix) :
    (Template.mk (withMCPDisable s true)).RenderCloudFormation =
      some (CloudFormationTemplate.mk
        (mapDelete (renderResources (Template.mk (withMCPDisable s false)) suffix)
          AWSIAMRoleEKSControlPlane)) ∧
    (renderResources (Template.mk (withMCPDisable s false)) suffix).lookup
        AWSIAMRoleEKSControlPlane =
      some (eksRoleRes (Template.mk (withMCPDisable s false))) ∧
    (renderResources (Template.mk (withMCPDisable s true)) suffix).lookup
        AWSIAMRoleEKSControlPlane = none ∧
    (renderResources (Template.mk (withMCPDisable s true)) suffix).lookup
        AWSIAMRoleControlPlane =
      (renderResources (Template.mk (withMCPDisable s false)) suffix).lookup
        AWSIAMRoleControlPlane ∧
    (renderResources (Template.mk (withMCPDisable s true)) suffix).lookup
        AWSIAMRoleControllers =
      (renderResources (Template.mk (withMCPDisable s false)) suffix).lookup
        AWSIAMRoleControllers ∧
    (renderResources (Template.mk (withMCPDisable s true)) suffix).lookup
        AWSIAMRoleNodes =
      (renderResources (Template.mk (withMCPDisable s false)) suffix).lookup
        AWSIAMRoleNodes := by
  refine ⟨?_, ?_, ?_, ?_, ?_, ?_⟩
  · rw [renderCloudFormation_eq_of_suffix (Template.mk (withMCPDisable s true)) suffix
      (by simpa [withMCPDisable] using hs)]
    refine congrArg some (congrArg CloudFormationTemplate.mk ?_)
    rw [renderResources_normal, renderResources_normal]
    cases hb : s.BootstrapUser.Enable <;>
    cases hcp : s.ControlPlane.DisableCloudProviderPolicy <;>
    cases hn : s.Nodes.DisableCloudProviderPolicy <;>
    cases hcsi : s.ControlPlane.EnableCSIPolicy <;>
    simp [withMCPDisable, mapDelete, hb, hcp, hn, hcsi, List.filter_append]
  · rw [lookup_render_eksRole]
    simp [withMCPDisable]
  · rw [lookup_render_eksRole]
    simp [withMCPDisable]
  · rw [lookup_render_roleControlPlane, lookup_render_roleControlPlane]
    simp [withMCPDisable]
  · rw [lookup_render_roleControllers, lookup_render_roleControllers]
    simp [withMCPDisable]
  · rw [lookup_render_roleNodes, lookup_render_roleNodes]
    simp [withMCPDisable]

/-- Witness for C6 at the concrete example spec. -/
theorem mcpToggle_frame_witness :
    (Template.mk (withMCPDisable exampleSpec true)).RenderCloudFormation =
      some (CloudFormationTemplate.mk
        (mapDelete (renderResources (Template.mk (withMCPDisable exampleSpec false))
          ".cluster-api") AWSIAMRoleEKSControlPlane)) ∧
    (renderResources (Template.mk (withMCPDisable exampleSpec false))
        ".cluster-api").lookup AWSIAMRoleEKSControlPlane =
      some (eksRoleRes (Template.mk (withMCPDisable exampleSpec false))) ∧
    (renderResources (Template.mk (withMCPDisable exampleSpec true))
        ".cluster-api").lookup AWSIAMRoleEKSControlPlane = none ∧
    (renderResources (Template.mk (withMCPDisable exampleSpec true))
        ".cluster-api").lookup AWSIAMRoleControlPlane =
      (renderResources (Template.mk (withMCPDisable exampleSpec false))
        ".cluster-api").lookup AWSIAMRoleControlPlane ∧
    (renderResources (Template.mk (withMCPDisable exampleSpec true))
        ".cluster-api").lookup AWSIAMRoleControllers =
      (renderResources (Template.mk (withMCPDisable exampleSpec false))
        ".cluster-api").lookup AWSIAMRoleControllers ∧
    (renderResources (Template.mk (withMCPDisable exampleSpec true))
        ".cluster-api").lookup AWSIAMRoleNodes =
      (renderResources (Template.mk (withMCPDisable exampleSpec false))
        ".cluster-api").lookup AWSIAMRoleNodes :=
  mcpToggle_frame exampleSpec ".cluster-api" rfl

end CAPA
